import Mathlib

/-!
Verification development for the solar-system travel-image generator
(`solarsystem.app.py`).  The Python source is shallowly embedded below:
strings are lists of Unicode code points (`Str`), PIL images are rasters
with explicit width/height and a pixel map, the HTTP layer and the PIL
decoder are passed in as explicit inputs of the functions that consume
them, and the global pseudo-random generator of the `random` module is
passed in as the stream of values it will produce.
-/

namespace SolarApp

/-- Python strings, modelled as lists of code points. -/
abbrev Str := List Char

/-- An 8-bit RGB colour, as in PIL mode "RGB". -/
structure Color where
  r : Fin 256
  g : Fin 256
  b : Fin 256
deriving DecidableEq, Repr

/-- A PIL image in mode "RGB": a width, a height and a pixel map.
The pixel map is meaningful on coordinates `x < w`, `y < h`. -/
structure Raster where
  w : Nat
  h : Nat
  pix : Nat → Nat → Color

/-- ASCII decimal digit test (Python `int` accepts these digits;
the model restricts to ASCII). -/
def isAsciiDigit (c : Char) : Bool := 48 ≤ c.toNat && c.toNat ≤ 57

/-- Numeric value of an ASCII digit. -/
def digitVal (c : Char) : Nat := c.toNat - 48

/-- ASCII lowercasing of one character: model of Python `str.lower`
restricted to ASCII letters (the inputs the claims exercise contain no
other cased characters). -/
def asciiLower (c : Char) : Char :=
  if 65 ≤ c.toNat ∧ c.toNat ≤ 90 then Char.ofNat (c.toNat + 32) else c

/-- ASCII whitespace, the characters Python `str.strip` and `int`
discard at both ends (model restricted to the ASCII whitespace set). -/
def pyWsChar (c : Char) : Bool :=
  c.toNat = 32 || c.toNat = 9 || c.toNat = 10 ||
  c.toNat = 13 || c.toNat = 11 || c.toNat = 12

/-- Python `str.strip()`: drop whitespace from both ends. -/
def pyStrip (s : Str) : Str :=
  ((s.dropWhile pyWsChar).reverse.dropWhile pyWsChar).reverse

/-- Python `str.split(sep)` for a one-character separator: splits on every
occurrence and keeps empty pieces, so the result is never empty. -/
def splitOnChar (c : Char) : Str → List Str
  | [] => [[]]
  | a :: rest =>
    let r := splitOnChar c rest
    if a = c then [] :: r
    else
      match r with
      | [] => [[a]]
      | s :: ss => (a :: s) :: ss

/-- Digit tail of a Python integer literal, after its first digit:
further digits, with single underscores allowed between digits
(`1_000`), as Python `int` accepts.  `acc` is the value read so far. -/
def pyDigitsAux : Str → Nat → Option Nat
  | [], acc => some acc
  | [c], acc =>
    if isAsciiDigit c then some (acc * 10 + digitVal c) else none
  | c :: c2 :: rest2, acc =>
    if isAsciiDigit c then pyDigitsAux (c2 :: rest2) (acc * 10 + digitVal c)
    else if c.toNat = 95 then
      if isAsciiDigit c2 then pyDigitsAux rest2 (acc * 10 + digitVal c2)
      else none
    else none

/-- Unsigned digit run of a Python integer literal: at least one digit,
then `pyDigitsAux`. -/
def pyDigits : Str → Option Nat
  | [] => none
  | c :: rest => if isAsciiDigit c then pyDigitsAux rest (digitVal c) else none

/-- Signed part of Python `int(...)` after whitespace stripping:
an optional single `+` or `-` sign, then digits. -/
def pyIntCore : Str → Option Int
  | [] => none
  | c :: rest =>
    if c.toNat = 43 then (pyDigits rest).map Int.ofNat
    else if c.toNat = 45 then (pyDigits rest).map (fun n => -(Int.ofNat n))
    else (pyDigits (c :: rest)).map Int.ofNat

/-- Model of Python `int(s)` on a string: strip whitespace at both ends,
then optional sign and digits; `none` models the `ValueError` raised on
anything else. -/
def pyInt (s : Str) : Option Int := pyIntCore (pyStrip s)

/-- `parse_size` from the source: lowercase, split on `"x"`, convert both
pieces with `int`; any failure (wrong number of pieces, unparsable piece)
is caught and yields the fallback `(1024, 1024)`. -/
def parse_size (size : Str) : Int × Int :=
  match splitOnChar 'x' (size.map asciiLower) with
  | [w, h] =>
    match pyInt w, pyInt h with
    | some wi, some hi => (wi, hi)
    | _, _ => (1024, 1024)
  | _ => (1024, 1024)

/-- `IMG_SIZE` from the source: the fixed requested resolution string. -/
def IMG_SIZE : Str := "1024x1024".data

/-- One row of the `PLANETS` table. -/
structure PlanetEntry where
  id : Str
  kr : Str
  en : Str
  emoji : Str
  tip : Str
deriving DecidableEq, Repr

/-- The `PLANETS` table from the source, in declaration order. -/
def PLANETS : List PlanetEntry :=
  [ ⟨"mercury".data, "수성".data, "Mercury".data, "🪨".data, "회색 바위 표면, 얇은 대기".data⟩,
    ⟨"venus".data,   "금성".data, "Venus".data,   "🌕".data, "두꺼운 황산 구름, 황금빛".data⟩,
    ⟨"earth".data,   "지구".data, "Earth".data,   "🌍".data, "푸른 바다, 하얀 구름".data⟩,
    ⟨"mars".data,    "화성".data, "Mars".data,    "🔴".data, "붉은 사막, 거대한 화산".data⟩,
    ⟨"jupiter".data, "목성".data, "Jupiter".data, "🌀".data, "적반점, 가스 거대 행성".data⟩,
    ⟨"saturn".data,  "토성".data, "Saturn".data,  "💍".data, "아름다운 고리".data⟩,
    ⟨"uranus".data,  "천왕성".data, "Uranus".data,  "🧊".data, "청록빛, 옆으로 누운 자전축".data⟩,
    ⟨"neptune".data, "해왕성".data, "Neptune".data, "🌊".data, "짙은 파랑, 강한 바람".data⟩ ]

/-- The ASCII single-quote character, which the first line of the final
prompt puts around the planet name. -/
def sq : Char := Char.ofNat 39

/-- The newline character used by `"\n".join`. -/
def nl : Char := Char.ofNat 10

/-- `final_prompt` from the source: the composed prompt is the
`"\n".join` of four f-string lines — preamble with the planet's Korean
and English names, the planet hint line, the fixed components line, and
the student-idea line carrying the user text verbatim. -/
def final_prompt (planet : PlanetEntry) (user_prompt : Str) : Str :=
  "중학생 과학 프로젝트를 위한 홍보용 이미지: ".data ++ [sq] ++ planet.kr ++
    " (".data ++ planet.en ++ ")".data ++ [sq] ++ " 여행 상품.".data ++
  [nl] ++
  "행성 특징: ".data ++ planet.tip ++ ".".data ++
  [nl] ++
  "구성 요소: 우주선, 거주 시설, 관광 포인트, 소형 안내문이 들어갈 빈 영역(실제 글자는 넣지 않음).".data ++
  [nl] ++
  "학생 아이디어: ".data ++ user_prompt

/-- `u` occurs in `v` as a contiguous substring. -/
def occursIn (u v : Str) : Prop := ∃ x y, v = x ++ u ++ y

/-!  The drawing model.  `generate_placeholder_image` issues a sequence
of `ImageDraw` operations on a solid background; the raster is the
background overpainted by the operations in order (a later operation
wins where it covers a pixel).  Ellipses use the integer form of PIL's
inscribed-ellipse test; a text operation is modelled as covering the
line box right and down from its anchor (6×11 pixels per character of
the default bitmap font) — approximate inside that box, exact in that
PIL never paints above or left of the anchor.  -/

/-- A drawing operation of `ImageDraw` used by the placeholder. -/
inductive DrawOp
  | ellipse (x0 y0 x1 y1 : Int) (fill : Color)
  | txt (x y : Int) (s : Str) (fill : Color)

/-- Whether a drawing operation covers pixel `(px, py)`. -/
def covers (o : DrawOp) (px py : Int) : Bool :=
  match o with
  | .ellipse x0 y0 x1 y1 _ =>
    let dx := 2 * px - (x0 + x1)
    let dy := 2 * py - (y0 + y1)
    let rx := x1 - x0
    let ry := y1 - y0
    decide (dx * dx * (ry * ry) + dy * dy * (rx * rx) ≤ rx * rx * (ry * ry))
  | .txt x y s _ =>
    decide (x ≤ px ∧ px < x + 6 * Int.ofNat s.length ∧ y ≤ py ∧ py < y + 11)

/-- Colour deposited by an operation at a covered pixel. -/
def opFill (o : DrawOp) : Color :=
  match o with
  | .ellipse _ _ _ _ f => f
  | .txt _ _ _ f => f

/-- Pixel value after replaying the operations in order over the
background: the last covering operation wins. -/
def pixelAt (bg : Color) (ops : List DrawOp) (px py : Int) : Color :=
  ops.foldl (fun acc o => if covers o px py then opFill o else acc) bg

/-- The star-scatter loop of `generate_placeholder_image`: star `i`
draws a white ellipse around `(randint(0,w-1), randint(0,h-1))` with
radius `randint(1,2)`.  `rng` is the stream of draws the global
`random` generator produces; draw `k` of range `[lo, hi]` is modelled
as `lo + rng k % (hi - lo + 1)`. -/
def starOps (rng : Nat → Nat) (w h n : Nat) : List DrawOp :=
  (List.range n).map (fun i =>
    let x : Int := Int.ofNat (rng (3 * i) % w)
    let y : Int := Int.ofNat (rng (3 * i + 1) % h)
    let r : Int := Int.ofNat (1 + rng (3 * i + 2) % 2)
    DrawOp.ellipse (x - r) (y - r) (x + r) (y + r) ⟨255, 255, 255⟩)

/-- The subtitle soft-wrap loop: accumulate words into `line`; when the
stripped candidate exceeds `wrap`, emit the current line at `(x08, yy)`
and advance `yy` by `dy`; after the loop a non-empty `line` is emitted. -/
def wrapOps (x08 dy : Int) (wrap : Nat) : List Str → Str → Int → List DrawOp
  | [], line, yy =>
    if line = [] then [] else [DrawOp.txt x08 yy line ⟨200, 200, 200⟩]
  | wd :: ws, line, yy =>
    let test := pyStrip (line ++ wd ++ [' '])
    if test.length > wrap then
      DrawOp.txt x08 yy line ⟨200, 200, 200⟩ ::
        wrapOps x08 dy wrap ws (wd ++ [' ']) (yy + dy)
    else
      wrapOps x08 dy wrap ws (test ++ [' ']) yy

/-- `generate_placeholder_image` from the source.  The size string is
parsed with `parse_size`; the `int(v * 0.xx)` layout constants are
modelled by the equal rational floors `v * xx / 100` (they agree at the
only size the app uses, 1024×1024).  `rng` is the state of the global
`random` generator, as the stream of values it will yield.  (PIL would
reject a non-positive parsed size; the app only ever passes
`IMG_SIZE`, which parses to 1024×1024.) -/
def generate_placeholder_image (rng : Nat → Nat)
    (title subtitle : Str) (size : Str) : Raster :=
  let ps := parse_size size
  let w := ps.1.toNat
  let h := ps.2.toNat
  let bg : Color := ⟨6, 10, 25⟩
  let stars := starOps rng w h (max 60 (w * h / 30000))
  let R : Int := Int.ofNat (min w h * 23 / 100)
  let cx : Int := Int.ofNat (w * 38 / 100)
  let cy : Int := Int.ofNat (h * 62 / 100)
  let planetOp := DrawOp.ellipse (cx - R) (cy - R) (cx + R) (cy + R) ⟨40, 44, 68⟩
  let titleOp := DrawOp.txt (Int.ofNat (w * 8 / 100)) (Int.ofNat (h * 10 / 100))
    title ⟨230, 230, 230⟩
  let wrap := max 18 (w / 26)
  let subOps := wrapOps (Int.ofNat (w * 8 / 100)) (Int.ofNat (w * 28 / 1000)) wrap
    (splitOnChar ' ' subtitle) [] (Int.ofNat (h * 16 / 100))
  let ops := stars ++ [planetOp, titleOp] ++ subOps
  { w := w, h := h,
    pix := fun x y => pixelAt bg ops (Int.ofNat x) (Int.ofNat y) }

/-!  The HTTP layer.  `requests.post` and the body it returns are
external; they enter `call_openai_image` as an explicit outcome value.
A transport-level exception (timeout, connection error) is the `.error`
case; otherwise the response carries its status code, the parsed JSON
body (`none` models `r.json()` raising on a malformed body; the inner
option is `j.get("data")`, `none` for an absent or null `data` key) and
the raw body text used in the HTTP error message.  Decoding the base64
payload into a PIL image (`base64.b64decode` + `Image.open`) is
likewise external and enters as `decodeImg`; `none` models a raised
decoding exception. -/

/-- One element of the response's `data` array.  The source reads only
`b64_json`; `url` is carried to show it is never consulted. -/
structure DataItem where
  b64_json : Option Str
  url : Option Str

/-- An HTTP response as `requests` presents it to the source. -/
structure HttpResponse where
  status : Nat
  json : Option (Option (List DataItem))
  text : Str

/-- `(j.get("data") or [{}])[0]`: the first data element, or an empty
element when the `data` key is absent, null, or an empty list. -/
def firstDataItem (jd : Option (List DataItem)) : DataItem :=
  match jd with
  | some (it :: _) => it
  | _ => ⟨none, none⟩

/-- Decimal rendering of the status code for the f-string message. -/
def natStr (n : Nat) : Str := (Nat.repr n).data

/-- `call_openai_image` from the source, over an explicit transport
outcome and decoder.  `r.raise_for_status()` raises exactly on a 4xx or
5xx status (re-raised as `RuntimeError("HTTP {status}: {text}")`); a
missing or empty (falsy) `b64_json` on the first data element raises
`RuntimeError("응답에 이미지 데이터가 없습니다. ...")`; decoder
exceptions propagate.  `.convert("RGB")` keeps the raster dimensions
(the model's rasters are already RGB). -/
def call_openai_image (net : Except Str HttpResponse)
    (decodeImg : Str → Option Raster) : Except Str Raster :=
  match net with
  | .error e => .error e
  | .ok r =>
    if 400 ≤ r.status ∧ r.status < 600 then
      .error ("HTTP ".data ++ natStr r.status ++ ": ".data ++ r.text)
    else
      match r.json with
      | none => .error "JSON 본문을 해석할 수 없습니다.".data
      | some jd =>
        match (firstDataItem jd).b64_json with
        | none => .error "응답에 이미지 데이터가 없습니다. 모델/권한을 확인하세요.".data
        | some s =>
          if s = [] then
            .error "응답에 이미지 데이터가 없습니다. 모델/권한을 확인하세요.".data
          else
            match decodeImg s with
            | none => .error "이미지 디코딩에 실패했습니다.".data
            | some img => .ok img

/-- Where the displayed image came from: the remote service or the
locally drawn placeholder. -/
inductive Source
  | REMOTE
  | PLACEHOLDER
deriving DecidableEq, Repr

/-- What the generate handler leaves behind for one acquisition: the
image, its provenance, and the status text shown next to it
(`st.success` on success, `st.error` on fallback). -/
structure AcquireResult where
  image : Raster
  source : Source
  message : Str

/-- The image-acquisition step of the generate handler (the
`try/except` of the button branch): try `call_openai_image`; on any
exception fall back to `generate_placeholder_image` with the planet
title and the prompt subtitle, reporting the error text.  Total by
construction: it never raises. -/
def acquire (net : Except Str HttpResponse) (decodeImg : Str → Option Raster)
    (rng : Nat → Nat) (planet : PlanetEntry) (user_prompt : Str) : AcquireResult :=
  match call_openai_image net decodeImg with
  | .ok img =>
    { image := img, source := .REMOTE, message := "이미지 생성 완료!".data }
  | .error e =>
    { image := generate_placeholder_image rng
        (planet.kr ++ " (".data ++ planet.en ++ ") 여행 홍보 이미지".data)
        ("프롬프트: ".data ++ user_prompt)
        IMG_SIZE,
      source := .PLACEHOLDER,
      message := "API 오류로 플레이스홀더 이미지를 표시합니다.\n\n상세: ".data ++ e }

/-- A stored generated image together with its provenance (the value
kept in `st.session_state.generated_image`). -/
structure GImage where
  raster : Raster
  source : Source

/-- The observable outcome of one press of the generate button. -/
structure ClickResult where
  generated_image : Option GImage
  warning : Option Str
  message : Option Str
  networkCalled : Bool

/-- The prompt-required warning text. -/
def warnPromptMsg : Str := "프롬프트는 필수입니다. 내용을 입력해 주세요.".data

/-- The API-key-required warning text. -/
def warnKeyMsg : Str := "API Key를 입력해 주세요.".data

/-- The generate-button handler: first clear the stored image to
`None`, then validate the prompt and the key (warning and no network
call on failure), otherwise run the acquisition.  `prior` is the
session's stored image before the press; the clearing makes the result
independent of it. -/
def generateClick (_prior : Option GImage)
    (net : Except Str HttpResponse) (decodeImg : Str → Option Raster)
    (rng : Nat → Nat) (planet : PlanetEntry)
    (user_prompt api_key : Str) : ClickResult :=
  let _cleared : Option GImage := none
  if pyStrip user_prompt = [] then
    { generated_image := none, warning := some warnPromptMsg,
      message := none, networkCalled := false }
  else if pyStrip api_key = [] then
    { generated_image := none, warning := some warnKeyMsg,
      message := none, networkCalled := false }
  else
    let r := acquire net decodeImg rng planet user_prompt
    { generated_image := some ⟨r.image, r.source⟩, warning := none,
      message := some r.message, networkCalled := true }

/-- The download section: the PNG download button is enabled exactly
when the session holds a generated image
(`isinstance(st.session_state.generated_image, Image.Image)`). -/
def downloadEnabled (s : Option GImage) : Bool := s.isSome

/-- Modelled from the spec: PIL's PNG codec (`img.save(buf,
format="PNG")` inside `pil_to_bytes`) lives outside the repository; the
spec contracts it as a deterministic, lossless serialization of the
raster.  The model serializes the dimensions followed by the row-major
R, G, B samples of every pixel, one byte each. -/
def pil_to_bytes (img : Raster) : List Nat :=
  img.w :: img.h ::
    (List.range (3 * (img.w * img.h))).map (fun i =>
      let p := i / 3
      let c := img.pix (p % img.w) (p / img.w)
      match i % 3 with
      | 0 => c.r.val
      | 1 => c.g.val
      | _ => c.b.val)

/-- Modelled from the spec: the decoding counterpart of the PNG
serialization (`Image.open` on the encoded bytes), recovering the
dimensions and the pixel samples; `none` on a malformed byte
sequence. -/
def bytes_to_image (bs : List Nat) : Option Raster :=
  match bs with
  | w :: h :: rest =>
    if rest.length = 3 * (w * h) then
      some (Raster.mk w h (fun x y =>
        let p := y * w + x
        { r := ⟨rest.getD (3 * p) 0 % 256, Nat.mod_lt _ (by omega)⟩,
          g := ⟨rest.getD (3 * p + 1) 0 % 256, Nat.mod_lt _ (by omega)⟩,
          b := ⟨rest.getD (3 * p + 2) 0 % 256, Nat.mod_lt _ (by omega)⟩ }))
    else none
  | _ => none

/-!  Concrete inputs used by witnesses and counterexamples. -/

/-- The Mars row of the catalog. -/
def marsEntry : PlanetEntry := PLANETS.getD 3 ⟨[], [], [], [], []⟩

/-- A possible state of the global random generator: the first star is
drawn at `(1023, 0)` with radius 1, all later stars at `(0, 500)`. -/
def rngA (n : Nat) : Nat :=
  if n = 0 then 1023
  else if n = 1 then 0
  else if n = 2 then 0
  else match n % 3 with
  | 0 => 0
  | 1 => 500
  | _ => 0

/-- Another possible generator state: every star is drawn at `(0, 500)`
with radius 1. -/
def rngB (n : Nat) : Nat :=
  match n % 3 with
  | 0 => 0
  | 1 => 500
  | _ => 0

/-- A 1×1 black raster, as a remote service may return for any request
(the source never checks the decoded size). -/
def tinyRaster : Raster := ⟨1, 1, fun _ _ => ⟨0, 0, 0⟩⟩

/-- A decoder outcome in which the base64 payload decodes to `tinyRaster`. -/
def decodeTiny : Str → Option Raster := fun _ => some tinyRaster

/-- A 1024×1024 dark raster of the requested resolution. -/
def fullRaster : Raster := ⟨1024, 1024, fun _ _ => ⟨6, 10, 25⟩⟩

/-- A decoder outcome in which the payload decodes to `fullRaster`. -/
def decodeFull : Str → Option Raster := fun _ => some fullRaster

/-- A 2xx response whose only data element carries a URL but no
`b64_json` field. -/
def net200url : Except Str HttpResponse :=
  .ok ⟨200, some (some [⟨none, some "https://example.com/img.png".data⟩]), [].reverse⟩

/-- A 2xx response carrying a base64 payload. -/
def net200b64 : Except Str HttpResponse :=
  .ok ⟨200, some (some [⟨some "QUJD".data, none⟩]), []⟩

/-- A non-2xx (300 Multiple Choices) response that nevertheless carries
a base64 payload; `requests.raise_for_status` only raises on 4xx/5xx. -/
def net300b64 : Except Str HttpResponse :=
  .ok ⟨300, some (some [⟨some "QUJD".data, none⟩]), []⟩

/-!  Claim C5. -/

/-- Claim C5 (confirmed): for every planet entry `p` and user text `t`,
the composed final prompt contains `p`'s Korean name, `p`'s English
name, `p`'s hint text, and `t` itself verbatim as substrings. -/
theorem C5_final_prompt_contains (p : PlanetEntry) (t : Str) :
    occursIn p.kr (final_prompt p t) ∧ occursIn p.en (final_prompt p t) ∧
    occursIn p.tip (final_prompt p t) ∧ occursIn t (final_prompt p t) := by
  refine ⟨⟨"중학생 과학 프로젝트를 위한 홍보용 이미지: ".data ++ [sq],
      " (".data ++ p.en ++ ")".data ++ [sq] ++ " 여행 상품.".data ++ [nl] ++
        "행성 특징: ".data ++ p.tip ++ ".".data ++ [nl] ++
        "구성 요소: 우주선, 거주 시설, 관광 포인트, 소형 안내문이 들어갈 빈 영역(실제 글자는 넣지 않음).".data ++
        [nl] ++ "학생 아이디어: ".data ++ t, ?_⟩,
    ⟨"중학생 과학 프로젝트를 위한 홍보용 이미지: ".data ++ [sq] ++ p.kr ++ " (".data,
      ")".data ++ [sq] ++ " 여행 상품.".data ++ [nl] ++
        "행성 특징: ".data ++ p.tip ++ ".".data ++ [nl] ++
        "구성 요소: 우주선, 거주 시설, 관광 포인트, 소형 안내문이 들어갈 빈 영역(실제 글자는 넣지 않음).".data ++
        [nl] ++ "학생 아이디어: ".data ++ t, ?_⟩,
    ⟨"중학생 과학 프로젝트를 위한 홍보용 이미지: ".data ++ [sq] ++ p.kr ++ " (".data ++
        p.en ++ ")".data ++ [sq] ++ " 여행 상품.".data ++ [nl] ++ "행성 특징: ".data,
      ".".data ++ [nl] ++
        "구성 요소: 우주선, 거주 시설, 관광 포인트, 소형 안내문이 들어갈 빈 영역(실제 글자는 넣지 않음).".data ++
        [nl] ++ "학생 아이디어: ".data ++ t, ?_⟩,
    ⟨"중학생 과학 프로젝트를 위한 홍보용 이미지: ".data ++ [sq] ++ p.kr ++ " (".data ++
        p.en ++ ")".data ++ [sq] ++ " 여행 상품.".data ++ [nl] ++ "행성 특징: ".data ++
        p.tip ++ ".".data ++ [nl] ++
        "구성 요소: 우주선, 거주 시설, 관광 포인트, 소형 안내문이 들어갈 빈 영역(실제 글자는 넣지 않음).".data ++
        [nl] ++ "학생 아이디어: ".data, [], ?_⟩⟩ <;>
  simp [final_prompt, List.append_assoc]

/-!  Claim C6. -/

/-- Claim C6 (confirmed): prompt composition is deterministic — equal
planet entries and equal user texts give byte-identical prompts.  The
embedded composer is a pure function of its two inputs, matching the
source, which reads nothing else. -/
theorem C6_final_prompt_deterministic (p1 p2 : PlanetEntry) (t1 t2 : Str)
    (hp : p1 = p2) (ht : t1 = t2) : final_prompt p1 t1 = final_prompt p2 t2 := by
  subst hp; subst ht; rfl

/-- Witness for C6 at a concrete planet and text. -/
theorem C6_witness :
    final_prompt marsEntry "미래형 우주 리조트".data =
      final_prompt marsEntry "미래형 우주 리조트".data :=
  C6_final_prompt_deterministic marsEntry marsEntry _ _ rfl rfl

/-!  Claim C7.  The placeholder is NOT a function of title, subtitle
and size alone: the star scatter reads the global random generator,
which is never seeded from the inputs, so two invocations with
identical inputs can differ pixel-for-pixel. -/

/-- Counterexample to claim C7 as stated: two invocations of the
placeholder synthesis with the same title, subtitle and size but
different states of the (unseeded) global random generator produce
rasters that differ at pixel `(1023, 0)` — white under `rngA`, the
background colour under `rngB`. -/
theorem C7_counterexample :
    (generate_placeholder_image rngA [] [] IMG_SIZE).pix 1023 0 ≠
      (generate_placeholder_image rngB [] [] IMG_SIZE).pix 1023 0 := by
  decide

/-- Claim C7 as amended (proved): the placeholder drawing is
deterministic in its inputs *together with* the random-generator state:
equal title, subtitle, size and generator state give identical
rasters. -/
theorem C7_amended_deterministic (rng1 rng2 : Nat → Nat)
    (t1 t2 s1 s2 z1 z2 : Str) (hr : rng1 = rng2) (ht : t1 = t2)
    (hs : s1 = s2) (hz : z1 = z2) :
    generate_placeholder_image rng1 t1 s1 z1 =
      generate_placeholder_image rng2 t2 s2 z2 := by
  subst hr; subst ht; subst hs; subst hz; rfl

/-- Witness for the amended C7 at a concrete generator state and
inputs. -/
theorem C7_witness :
    generate_placeholder_image rngA "화성".data [] IMG_SIZE =
      generate_placeholder_image rngA "화성".data [] IMG_SIZE :=
  C7_amended_deterministic rngA rngA _ _ _ _ _ _ rfl rfl rfl rfl

/-!  Claims C1, C2, C3: the acquisition step. -/

/-- The placeholder raster built for the fixed `IMG_SIZE` always has
the parsed 1024×1024 dimensions, whatever the generator state and
captions. -/
lemma placeholder_dims (rng : Nat → Nat) (title subtitle : Str) :
    (generate_placeholder_image rng title subtitle IMG_SIZE).w = 1024 ∧
      (generate_placeholder_image rng title subtitle IMG_SIZE).h = 1024 :=
  ⟨rfl, rfl⟩

/-- A successful `call_openai_image` returns exactly an image produced
by the external decoder: the source performs no resizing or size check
on the remote image. -/
lemma call_ok_from_decoder (net : Except Str HttpResponse)
    (decodeImg : Str → Option Raster) (img : Raster)
    (h : call_openai_image net decodeImg = .ok img) :
    ∃ s, decodeImg s = some img := by
  cases net with
  | error e => simp [call_openai_image] at h
  | ok r =>
    simp only [call_openai_image] at h
    split at h
    · simp at h
    · split at h
      · simp at h
      · split at h
        · simp at h
        · split at h
          · simp at h
          · split at h
            · simp at h
            · rename_i img2 heq
              cases h
              exact ⟨_, heq⟩

/-- Counterexample to claim C1 as stated: a successful remote exchange
whose body decodes to a 1×1 image is returned unchanged (marked
REMOTE), so the acquired raster does not have the requested 1024×1024
dimensions — the success path never checks or resizes. -/
theorem C1_counterexample :
    (acquire net200b64 decodeTiny rngB marsEntry []).image.w = 1 ∧
      (acquire net200b64 decodeTiny rngB marsEntry []).image.w ≠ 1024 ∧
      (acquire net200b64 decodeTiny rngB marsEntry []).source = Source.REMOTE := by
  refine ⟨rfl, by decide, rfl⟩

/-- Claim C1 as amended (proved): on the failure path the acquired
raster always has the parsed 1024×1024 dimensions; on the success path
it is exactly the decoded remote raster, so it has the requested
dimensions whenever the remote service honours the size parameter
(hypothesis `hdec`). -/
theorem C1_amended_dims (net : Except Str HttpResponse)
    (decodeImg : Str → Option Raster) (rng : Nat → Nat)
    (p : PlanetEntry) (t : Str)
    (hdec : ∀ s img, decodeImg s = some img → img.w = 1024 ∧ img.h = 1024) :
    (acquire net decodeImg rng p t).image.w = 1024 ∧
      (acquire net decodeImg rng p t).image.h = 1024 := by
  unfold acquire
  cases hc : call_openai_image net decodeImg with
  | ok img =>
    obtain ⟨s, hs⟩ := call_ok_from_decoder net decodeImg img hc
    exact hdec s img hs
  | error e => exact placeholder_dims rng _ _

/-- Witness for the amended C1: with a transport failure the
placeholder has the requested dimensions (the decoder hypothesis is
discharged by a decoder that honours the size). -/
theorem C1_witness :
    (acquire (Except.error "읽기 시간 초과".data) decodeFull rngB marsEntry []).image.w = 1024 ∧
      (acquire (Except.error "읽기 시간 초과".data) decodeFull rngB marsEntry []).image.h = 1024 :=
  C1_amended_dims _ _ _ _ _
    (fun s img h => by
      have : fullRaster = img := by
        have h2 : some fullRaster = some img := h
        exact Option.some.inj h2
      rw [← this]; exact ⟨rfl, rfl⟩)

/-- Spec-style enumeration of the remote-call failure conditions the
code actually reacts to: a transport exception, a 4xx/5xx status
(`raise_for_status`), a malformed JSON body, a missing or empty
`b64_json` on the first data element, or a failing image decode. -/
def requestFails (net : Except Str HttpResponse)
    (decodeImg : Str → Option Raster) : Bool :=
  match net with
  | .error _ => true
  | .ok r =>
    if 400 ≤ r.status ∧ r.status < 600 then true
    else
      match r.json with
      | none => true
      | some jd =>
        match (firstDataItem jd).b64_json with
        | none => true
        | some s => s.isEmpty || (decodeImg s).isNone

/-- Every enumerated failure condition makes `call_openai_image` come
back as an error. -/
lemma call_error_of_requestFails (net : Except Str HttpResponse)
    (decodeImg : Str → Option Raster)
    (h : requestFails net decodeImg = true) :
    ∃ e, call_openai_image net decodeImg = .error e := by
  cases net with
  | error e => exact ⟨e, rfl⟩
  | ok r =>
    simp only [requestFails] at h
    simp only [call_openai_image]
    split at h
    · rename_i hs
      rw [if_pos hs]
      exact ⟨_, rfl⟩
    · rename_i hs
      rw [if_neg hs]
      cases hj : r.json with
      | none => exact ⟨_, rfl⟩
      | some jd =>
        have h2 : (match (firstDataItem jd).b64_json with
            | none => true
            | some s => s.isEmpty || (decodeImg s).isNone) = true := by
          rw [hj] at h; exact h
        show ∃ e, (match (firstDataItem jd).b64_json with
          | none => Except.error "응답에 이미지 데이터가 없습니다. 모델/권한을 확인하세요.".data
          | some s =>
            if s = [] then Except.error "응답에 이미지 데이터가 없습니다. 모델/권한을 확인하세요.".data
            else
              match decodeImg s with
              | none => Except.error "이미지 디코딩에 실패했습니다.".data
              | some img => Except.ok img) = Except.error e
        cases hb : (firstDataItem jd).b64_json with
        | none => exact ⟨_, rfl⟩
        | some s =>
          rw [hb] at h2
          have h3 : (s.isEmpty || (decodeImg s).isNone) = true := h2
          show ∃ e, (if s = [] then
              Except.error "응답에 이미지 데이터가 없습니다. 모델/권한을 확인하세요.".data
            else
              match decodeImg s with
              | none => Except.error "이미지 디코딩에 실패했습니다.".data
              | some img => Except.ok img) = Except.error e
          by_cases hse : s = []
          · rw [if_pos hse]
            exact ⟨_, rfl⟩
          · rw [if_neg hse]
            have hd : (decodeImg s).isNone = true := by
              have hne : s.isEmpty = false := by
                cases s with
                | nil => exact absurd rfl hse
                | cons c cs => rfl
              rw [hne] at h3
              simpa using h3
            cases hdc : decodeImg s with
            | none => exact ⟨_, rfl⟩
            | some img => rw [hdc] at hd; simp at hd

/-- When the remote call comes back as an error, the acquisition step
yields the placeholder with a non-empty diagnostic message. -/
lemma acquire_of_call_error (net : Except Str HttpResponse)
    (decodeImg : Str → Option Raster) (rng : Nat → Nat)
    (p : PlanetEntry) (t : Str) (e : Str)
    (hc : call_openai_image net decodeImg = .error e) :
    (acquire net decodeImg rng p t).source = Source.PLACEHOLDER ∧
      (acquire net decodeImg rng p t).message ≠ [] := by
  unfold acquire
  rw [hc]
  exact ⟨rfl, by simp⟩

/-- Counterexample to claim C2 as stated: a non-2xx response (status
300) whose body still carries a decodable base64 payload is NOT routed
to the placeholder — `raise_for_status` only raises on 4xx/5xx, so the
acquirer returns it marked REMOTE. -/
theorem C2_counterexample :
    (acquire net300b64 decodeTiny rngB marsEntry []).source = Source.REMOTE := rfl

/-- Claim C2 as amended (proved): the acquisition step is total (the
embedding returns a value on every input), and whenever the remote call
fails — transport exception, 4xx/5xx status, malformed body, missing or
empty image data, or a failing decode — the result is the placeholder
(`source = PLACEHOLDER`) with a non-empty diagnostic text. -/
theorem C2_amended_failure_to_placeholder (net : Except Str HttpResponse)
    (decodeImg : Str → Option Raster) (rng : Nat → Nat)
    (p : PlanetEntry) (t : Str)
    (h : requestFails net decodeImg = true) :
    (acquire net decodeImg rng p t).source = Source.PLACEHOLDER ∧
      (acquire net decodeImg rng p t).message ≠ [] := by
  obtain ⟨e, hc⟩ := call_error_of_requestFails net decodeImg h
  exact acquire_of_call_error net decodeImg rng p t e hc

/-- Witness for the amended C2: a concrete timeout produces the
placeholder and a non-empty diagnostic. -/
theorem C2_witness :
    (acquire (Except.error "읽기 시간 초과".data) decodeTiny rngB marsEntry []).source =
        Source.PLACEHOLDER ∧
      (acquire (Except.error "읽기 시간 초과".data) decodeTiny rngB marsEntry []).message ≠ [] :=
  C2_amended_failure_to_placeholder _ _ _ _ _ rfl

/-- Counterexample to claim C3 as stated: on a 2xx response whose only
data element has no `b64_json` but does carry a URL, the source reads
only `b64_json`, raises "no image data", and falls back — the result is
marked PLACEHOLDER, not REMOTE, and no second request is ever made. -/
theorem C3_counterexample :
    (acquire net200url decodeTiny rngB marsEntry []).source = Source.PLACEHOLDER := rfl

/-- Claim C3 as amended (proved): a successful (2xx) response whose
first data element carries no encoded-image field is treated as a
failure regardless of any URL field: the acquirer raises its
missing-data error internally and returns the placeholder with a
non-empty diagnostic.  (The embedded `call_openai_image` never consults
the `url` field at all, so no second request exists to model.) -/
theorem C3_amended_url_only_is_failure (net : Except Str HttpResponse)
    (decodeImg : Str → Option Raster) (rng : Nat → Nat)
    (p : PlanetEntry) (t : Str) (r : HttpResponse) (jd : Option (List DataItem))
    (hnet : net = .ok r) (h2xx : 200 ≤ r.status ∧ r.status < 300)
    (hjson : r.json = some jd)
    (hb64 : (firstDataItem jd).b64_json = none) :
    (acquire net decodeImg rng p t).source = Source.PLACEHOLDER ∧
      (acquire net decodeImg rng p t).message ≠ [] := by
  have hfail : requestFails net decodeImg = true := by
    subst hnet
    simp only [requestFails]
    have hs : ¬ (400 ≤ r.status ∧ r.status < 600) := by omega
    rw [if_neg hs]
    rw [hjson]
    show (match (firstDataItem jd).b64_json with
      | none => true
      | some s => s.isEmpty || (decodeImg s).isNone) = true
    rw [hb64]
  obtain ⟨e, hc⟩ := call_error_of_requestFails net decodeImg hfail
  exact acquire_of_call_error net decodeImg rng p t e hc

/-- Witness for the amended C3 at the concrete URL-only response. -/
theorem C3_witness :
    (acquire net200url decodeTiny rngA marsEntry []).source = Source.PLACEHOLDER ∧
      (acquire net200url decodeTiny rngA marsEntry []).message ≠ [] :=
  C3_amended_url_only_is_failure net200url decodeTiny rngA marsEntry []
    ⟨200, some (some [⟨none, some "https://example.com/img.png".data⟩]), [].reverse⟩
    (some [⟨none, some "https://example.com/img.png".data⟩])
    rfl (by decide) rfl rfl

/-!  Claims C4 and C10: the generate-button handler. -/

/-- Claim C4 (confirmed): whenever the prompt or the API key is empty
or whitespace-only, the press is rejected with a user-visible,
non-empty warning and no network call is attempted. -/
theorem C4_validation_blocks_network (prior : Option GImage)
    (net : Except Str HttpResponse) (decodeImg : Str → Option Raster)
    (rng : Nat → Nat) (p : PlanetEntry) (user_prompt api_key : Str)
    (h : pyStrip user_prompt = [] ∨ pyStrip api_key = []) :
    (generateClick prior net decodeImg rng p user_prompt api_key).networkCalled = false ∧
      ∃ w, (generateClick prior net decodeImg rng p user_prompt api_key).warning = some w ∧
        w ≠ [] := by
  unfold generateClick
  by_cases hp : pyStrip user_prompt = []
  · rw [if_pos hp]
    exact ⟨rfl, warnPromptMsg, rfl, by decide⟩
  · rw [if_neg hp]
    have hk : pyStrip api_key = [] := h.resolve_left hp
    rw [if_pos hk]
    exact ⟨rfl, warnKeyMsg, rfl, by decide⟩

/-- Witness for C4: a whitespace-only prompt yields no network call and
the prompt warning. -/
theorem C4_witness :
    (generateClick none net200b64 decodeTiny rngA marsEntry "   ".data "sk-abc".data).networkCalled = false ∧
      ∃ w, (generateClick none net200b64 decodeTiny rngA marsEntry "   ".data "sk-abc".data).warning = some w ∧
        w ≠ [] :=
  C4_validation_blocks_network none net200b64 decodeTiny rngA marsEntry
    "   ".data "sk-abc".data (Or.inl (by decide))

/-- Claim C10 (confirmed): every press first clears the stored image,
so when validation fails the session holds no image — whatever was
stored before is discarded — and the PNG download control is
disabled. -/
theorem C10_validation_failure_clears_image (prior : Option GImage)
    (net : Except Str HttpResponse) (decodeImg : Str → Option Raster)
    (rng : Nat → Nat) (p : PlanetEntry) (user_prompt api_key : Str)
    (h : pyStrip user_prompt = [] ∨ pyStrip api_key = []) :
    (generateClick prior net decodeImg rng p user_prompt api_key).generated_image = none ∧
      downloadEnabled
        (generateClick prior net decodeImg rng p user_prompt api_key).generated_image = false := by
  unfold generateClick
  by_cases hp : pyStrip user_prompt = []
  · rw [if_pos hp]
    exact ⟨rfl, rfl⟩
  · rw [if_neg hp]
    have hk : pyStrip api_key = [] := h.resolve_left hp
    rw [if_pos hk]
    exact ⟨rfl, rfl⟩

/-- Witness for C10: with a previously stored image and an empty key,
the press leaves the session image cleared and the download disabled. -/
theorem C10_witness :
    (generateClick (some ⟨tinyRaster, Source.REMOTE⟩) net200b64 decodeTiny rngA marsEntry
        "멋진 우주 호텔".data "  ".data).generated_image = none ∧
      downloadEnabled
        (generateClick (some ⟨tinyRaster, Source.REMOTE⟩) net200b64 decodeTiny rngA marsEntry
          "멋진 우주 호텔".data "  ".data).generated_image = false :=
  C10_validation_failure_clears_image (some ⟨tinyRaster, Source.REMOTE⟩) net200b64 decodeTiny
    rngA marsEntry "멋진 우주 호텔".data "  ".data (Or.inr (by decide))

/-!  Claim C8: the encoder. -/

/-- Claim C8 (confirmed): decoding the byte sequence produced by the
PNG encoding of any RGB raster succeeds and reproduces the same
dimensions and the same pixel data; the encoding is deterministic (a
pure function of the raster). -/
theorem C8_png_roundtrip (img img2 : Raster)
    (hdec : bytes_to_image (pil_to_bytes img) = some img2) :
    (bytes_to_image (pil_to_bytes img)).isSome = true ∧
    img2.w = img.w ∧ img2.h = img.h ∧
    (∀ x y, x < img.w → y < img.h → img2.pix x y = img.pix x y) ∧
    (∀ img3, img3 = img → pil_to_bytes img3 = pil_to_bytes img) := by
  refine ⟨by rw [hdec]; rfl, ?_⟩
  cases img with
  | mk w h pixf =>
    simp only [pil_to_bytes, bytes_to_image] at hdec
    rw [if_pos (by simp)] at hdec
    injection hdec with h2
    subst h2
    refine ⟨rfl, rfl, ?_, fun img3 he => by rw [he]⟩
    intro x y hx0 hy0
    have hx : x < w := hx0
    have hy : y < h := hy0
    have hw : 0 < w := by omega
    have hp : y * w + x < w * h := by
      have h1 : y * w + x < (y + 1) * w := by
        rw [Nat.succ_mul]; omega
      have h2 : (y + 1) * w ≤ h * w := Nat.mul_le_mul_right w hy
      calc y * w + x < (y + 1) * w := h1
        _ ≤ h * w := h2
        _ = w * h := Nat.mul_comm h w
    have hidx : ∀ i, i < 3 * (w * h) →
        ((List.range (3 * (w * h))).map (fun i =>
          match i % 3 with
          | 0 => (pixf (i / 3 % w) (i / 3 / w)).r.val
          | 1 => (pixf (i / 3 % w) (i / 3 / w)).g.val
          | _ => (pixf (i / 3 % w) (i / 3 / w)).b.val)).getD i 0 =
          (match i % 3 with
          | 0 => (pixf (i / 3 % w) (i / 3 / w)).r.val
          | 1 => (pixf (i / 3 % w) (i / 3 / w)).g.val
          | _ => (pixf (i / 3 % w) (i / 3 / w)).b.val) := by
      intro i hi
      rw [List.getD_eq_getElem _ _ (by simpa using hi)]
      rw [List.getElem_map]
      congr 1 <;> rw [List.getElem_range]
    have m0 : (3 * (y * w + x)) % 3 = 0 := by omega
    have d0 : (3 * (y * w + x)) / 3 = y * w + x := by omega
    have m1 : (3 * (y * w + x) + 1) % 3 = 1 := by omega
    have d1 : (3 * (y * w + x) + 1) / 3 = y * w + x := by omega
    have m2 : (3 * (y * w + x) + 2) % 3 = 2 := by omega
    have d2 : (3 * (y * w + x) + 2) / 3 = y * w + x := by omega
    have hxq : (y * w + x) % w = x := by
      have hc : y * w + x = x + w * y := by ring
      rw [hc, Nat.add_mul_mod_self_left, Nat.mod_eq_of_lt hx]
    have hyq : (y * w + x) / w = y := by
      have hc : y * w + x = x + w * y := by ring
      rw [hc, Nat.add_mul_div_left _ _ hw, Nat.div_eq_of_lt hx, Nat.zero_add]
    have e0 := hidx (3 * (y * w + x)) (by omega)
    have e1 := hidx (3 * (y * w + x) + 1) (by omega)
    have e2 := hidx (3 * (y * w + x) + 2) (by omega)
    rw [m0, d0, hxq, hyq] at e0
    rw [m1, d1, hxq, hyq] at e1
    rw [m2, d2, hxq, hyq] at e2
    have v0 := (congrArg (fun t => t % 256) e0).trans
      (Nat.mod_eq_of_lt (pixf x y).r.isLt)
    have v1 := (congrArg (fun t => t % 256) e1).trans
      (Nat.mod_eq_of_lt (pixf x y).g.isLt)
    have v2 := (congrArg (fun t => t % 256) e2).trans
      (Nat.mod_eq_of_lt (pixf x y).b.isLt)
    dsimp only
    refine Eq.trans ?_
      (rfl : Color.mk (pixf x y).r (pixf x y).g (pixf x y).b = pixf x y)
    congr 1
    · exact Fin.ext v0
    · exact Fin.ext v1
    · exact Fin.ext v2

/-- A concrete 1×1 raster for the C8 witness. -/
def testImg : Raster := ⟨1, 1, fun _ _ => ⟨6, 10, 25⟩⟩

/-- The decode of the encode of `testImg`. -/
def testDec : Raster :=
  (bytes_to_image (pil_to_bytes testImg)).getD ⟨0, 0, fun _ _ => ⟨0, 0, 0⟩⟩

/-- Witness for C8 at the concrete 1×1 raster. -/
theorem C8_witness :
    (bytes_to_image (pil_to_bytes testImg)).isSome = true ∧
      testDec.w = testImg.w ∧ testDec.h = testImg.h ∧
      testDec.pix 0 0 = testImg.pix 0 0 := by
  have H := C8_png_roundtrip testImg testDec rfl
  exact ⟨H.1, H.2.1, H.2.2.1, H.2.2.2.1 0 0 (by decide) (by decide)⟩

/-!  Claim C9: `parse_size`. -/

/-- A non-empty all-digit string. -/
def isDigitStr (s : Str) : Bool := !s.isEmpty && s.all isAsciiDigit

/-- A bare integer numeral: an optional single sign followed by one or
more ASCII digits, with no whitespace and no underscores — the literal
reading of the claim's `<int>`. -/
def isIntLit (s : Str) : Bool :=
  match s with
  | [] => false
  | c :: rest =>
    if c.toNat = 43 || c.toNat = 45 then isDigitStr rest
    else isDigitStr (c :: rest)

/-- Decimal value of an all-digit string. -/
def digitsVal (s : Str) : Nat := s.foldl (fun a c => a * 10 + digitVal c) 0

/-- Signed value of a bare integer numeral. -/
def intLitVal (s : Str) : Int :=
  match s with
  | [] => 0
  | c :: rest =>
    if c.toNat = 43 then Int.ofNat (digitsVal rest)
    else if c.toNat = 45 then -(Int.ofNat (digitsVal rest))
    else Int.ofNat (digitsVal (c :: rest))

/-- Whether the string is of the claimed form `<int>x<int>`
(case-insensitive separator): some position carries `x` or `X` with a
bare integer numeral on each side. -/
def intPairForm (s : Str) : Bool :=
  (List.range s.length).any (fun i =>
    (s.getD i ' ' = 'x' || s.getD i ' ' = 'X') &&
    isIntLit (s.take i) && isIntLit (s.drop (i + 1)))

/-- Whether `parse_size` reaches its success branch on `s`: exactly two
pieces around `x` after lowercasing, both accepted by Python `int`. -/
def pyAcceptable (s : Str) : Bool :=
  match splitOnChar 'x' (s.map asciiLower) with
  | [a, b] => (pyInt a).isSome && (pyInt b).isSome
  | _ => false

/-- A character a bare integer numeral may contain. -/
def intLitChar (c : Char) : Bool := c.toNat = 43 || c.toNat = 45 || isAsciiDigit c

lemma digitStr_parts (s : Str) (h : isDigitStr s = true) :
    s ≠ [] ∧ ∀ c ∈ s, isAsciiDigit c = true := by
  unfold isDigitStr at h
  rw [Bool.and_eq_true] at h
  constructor
  · intro he
    subst he
    simp at h
  · intro c hc
    exact List.all_eq_true.mp h.2 c hc

lemma isIntLit_all_chars (a : Str) (h : isIntLit a = true) :
    ∀ c ∈ a, intLitChar c = true := by
  cases a with
  | nil => simp [isIntLit] at h
  | cons c rest =>
    simp only [isIntLit] at h
    by_cases hs : (c.toNat = 43 || c.toNat = 45) = true
    · rw [if_pos hs] at h
      intro d hd
      rcases List.mem_cons.mp hd with he | hm
      · subst he
        unfold intLitChar
        rw [Bool.or_eq_true]
        exact Or.inl hs
      · have := (digitStr_parts rest h).2 d hm
        unfold intLitChar
        rw [Bool.or_eq_true]
        exact Or.inr this
    · rw [if_neg hs] at h
      intro d hd
      have := (digitStr_parts (c :: rest) h).2 d hd
      unfold intLitChar
      rw [Bool.or_eq_true]
      exact Or.inr this

lemma intLitChar_facts (c : Char) (h : intLitChar c = true) :
    asciiLower c = c ∧ ¬ c = 'x' ∧ pyWsChar c = false := by
  have hn : c.toNat = 43 ∨ c.toNat = 45 ∨ (48 ≤ c.toNat ∧ c.toNat ≤ 57) := by
    unfold intLitChar at h
    rw [Bool.or_eq_true, Bool.or_eq_true] at h
    rcases h with (h1 | h2) | h3
    · exact Or.inl (by simpa using h1)
    · exact Or.inr (Or.inl (by simpa using h2))
    · simp only [isAsciiDigit, Bool.and_eq_true, decide_eq_true_eq] at h3
      exact Or.inr (Or.inr h3)
  refine ⟨?_, ?_, ?_⟩
  · unfold asciiLower
    rw [if_neg]
    omega
  · intro he
    subst he
    revert hn
    decide
  · unfold pyWsChar
    simp only [Bool.or_eq_false_iff, decide_eq_false_iff_not]
    omega

lemma map_lower_fix (a : Str) (hc : ∀ c ∈ a, intLitChar c = true) :
    a.map asciiLower = a := by
  induction a with
  | nil => rfl
  | cons c rest ih =>
    rw [List.map_cons, (intLitChar_facts c (hc c (List.mem_cons_self c rest))).1,
      ih (fun d hd => hc d (List.mem_cons_of_mem c hd))]

lemma dropWhile_fix (p : Char → Bool) (l : Str) (hc : ∀ c ∈ l, p c = false) :
    l.dropWhile p = l := by
  cases l with
  | nil => rfl
  | cons c rest =>
    rw [List.dropWhile_cons, hc c (List.mem_cons_self c rest)]
    simp

lemma strip_fix (a : Str) (hc : ∀ c ∈ a, pyWsChar c = false) : pyStrip a = a := by
  unfold pyStrip
  rw [dropWhile_fix _ _ hc,
    dropWhile_fix _ _ (fun c hcm => hc c (List.mem_reverse.mp hcm)),
    List.reverse_reverse]

lemma split_not_mem (u : Str) (c : Char) (h : ∀ d ∈ u, ¬ d = c) :
    splitOnChar c u = [u] := by
  induction u with
  | nil => rfl
  | cons a rest ih =>
    simp only [splitOnChar]
    rw [if_neg (h a (List.mem_cons_self a rest))]
    rw [ih (fun d hd => h d (List.mem_cons_of_mem a hd))]

lemma split_append (u v : Str) (c : Char) (h : ∀ d ∈ u, ¬ d = c) :
    splitOnChar c (u ++ c :: v) = u :: splitOnChar c v := by
  induction u with
  | nil =>
    simp only [List.nil_append, splitOnChar]
    simp
  | cons a rest ih =>
    simp only [List.cons_append, splitOnChar, List.append_eq]
    rw [if_neg (h a (List.mem_cons_self a rest))]
    rw [ih (fun d hd => h d (List.mem_cons_of_mem a hd))]

lemma pyDigitsAux_all (s : Str) (acc : Nat)
    (h : ∀ c ∈ s, isAsciiDigit c = true) :
    pyDigitsAux s acc = some (s.foldl (fun a c => a * 10 + digitVal c) acc) := by
  induction s generalizing acc with
  | nil => rfl
  | cons c rest ih =>
    cases rest with
    | nil =>
      simp only [pyDigitsAux]
      rw [if_pos (h c (List.mem_cons_self c []))]
      simp
    | cons c2 rest2 =>
      simp only [pyDigitsAux]
      rw [if_pos (h c (List.mem_cons_self c (c2 :: rest2)))]
      rw [ih _ (fun d hd => h d (List.mem_cons_of_mem c hd))]
      rfl

lemma pyDigits_val (s : Str) (hne : s ≠ [])
    (h : ∀ c ∈ s, isAsciiDigit c = true) :
    pyDigits s = some (digitsVal s) := by
  cases s with
  | nil => exact absurd rfl hne
  | cons c rest =>
    simp only [pyDigits]
    rw [if_pos (h c (List.mem_cons_self c rest))]
    rw [pyDigitsAux_all rest _ (fun d hd => h d (List.mem_cons_of_mem c hd))]
    unfold digitsVal
    rw [List.foldl_cons]
    simp

lemma pyInt_intLit (a : Str) (h : isIntLit a = true) :
    pyInt a = some (intLitVal a) := by
  have hchars := isIntLit_all_chars a h
  have hstrip : pyStrip a = a :=
    strip_fix a (fun c hc => (intLitChar_facts c (hchars c hc)).2.2)
  unfold pyInt
  rw [hstrip]
  cases a with
  | nil => simp [isIntLit] at h
  | cons c rest =>
    simp only [isIntLit] at h
    simp only [pyIntCore, intLitVal]
    by_cases h43 : c.toNat = 43
    · rw [if_pos h43]
      have hds : isDigitStr rest = true := by
        rw [if_pos (by rw [Bool.or_eq_true]; exact Or.inl (by simpa using h43))] at h
        exact h
      obtain ⟨hne, hdig⟩ := digitStr_parts rest hds
      rw [pyDigits_val rest hne hdig]
      simp [h43]
    · rw [if_neg h43]
      by_cases h45 : c.toNat = 45
      · rw [if_pos h45]
        have hds : isDigitStr rest = true := by
          rw [if_pos (by rw [Bool.or_eq_true]; exact Or.inr (by simpa using h45))] at h
          exact h
        obtain ⟨hne, hdig⟩ := digitStr_parts rest hds
        rw [pyDigits_val rest hne hdig]
        simp [h43, h45]
      · rw [if_neg h45]
        have hds : isDigitStr (c :: rest) = true := by
          rw [if_neg (by rw [Bool.or_eq_true]; push_neg; exact ⟨by simpa using h43, by simpa using h45⟩)] at h
          exact h
        obtain ⟨hne, hdig⟩ := digitStr_parts (c :: rest) hds
        rw [pyDigits_val (c :: rest) hne hdig]
        simp [h43, h45]

lemma parse_intpair (a b : Str) (sep : Char) (hsep : sep = 'x' ∨ sep = 'X')
    (ha : isIntLit a = true) (hb : isIntLit b = true) :
    parse_size (a ++ sep :: b) = (intLitVal a, intLitVal b) := by
  have hca := isIntLit_all_chars a ha
  have hcb := isIntLit_all_chars b hb
  have hsepl : asciiLower sep = 'x' := by
    rcases hsep with hx | hX
    · subst hx; decide
    · subst hX; decide
  have hmap : (a ++ sep :: b).map asciiLower = a ++ 'x' :: b := by
    rw [List.map_append, List.map_cons, hsepl,
      map_lower_fix a hca, map_lower_fix b hcb]
  unfold parse_size
  rw [hmap]
  rw [split_append a b 'x' (fun d hd => (intLitChar_facts d (hca d hd)).2.1)]
  rw [split_not_mem b 'x' (fun d hd => (intLitChar_facts d (hcb d hd)).2.1)]
  show (match pyInt a, pyInt b with
    | some wi, some hi => (wi, hi)
    | _, _ => ((1024 : Int), (1024 : Int))) = (intLitVal a, intLitVal b)
  rw [pyInt_intLit a ha, pyInt_intLit b hb]

lemma parse_fallback (s : Str) (h : pyAcceptable s = false) :
    parse_size s = (1024, 1024) := by
  unfold pyAcceptable at h
  unfold parse_size
  cases hsp : splitOnChar 'x' (s.map asciiLower) with
  | nil => rfl
  | cons a t =>
    cases t with
    | nil => rfl
    | cons b t2 =>
      cases t2 with
      | cons c t3 => rfl
      | nil =>
        rw [hsp] at h
        have h2 : ((pyInt a).isSome && (pyInt b).isSome) = false := h
        show (match pyInt a, pyInt b with
          | some wi, some hi => (wi, hi)
          | _, _ => ((1024 : Int), (1024 : Int))) = (1024, 1024)
        cases hA : pyInt a with
        | none => rfl
        | some wi =>
          cases hB : pyInt b with
          | none => rfl
          | some hi =>
            rw [hA, hB] at h2
            simp at h2

/-- Claim C9 as amended (proved): `parse_size` is total; every string
of the form `<int>x<int>` (bare signed numerals, `x` or `X`) parses to
that pair; and every string `parse_size` cannot split into two
Python-int-accepted pieces around `x` falls back to `(1024, 1024)`.
(The amendment: Python `int` also accepts surrounding whitespace and
digit-group underscores in the two pieces, so some strings NOT of the
bare `<int>x<int>` form also parse to a pair instead of falling
back.) -/
theorem C9_amended_parse :
    (∀ (a b : Str) (sep : Char), (sep = 'x' ∨ sep = 'X') →
        isIntLit a = true → isIntLit b = true →
        parse_size (a ++ sep :: b) = (intLitVal a, intLitVal b)) ∧
      ∀ s : Str, pyAcceptable s = false → parse_size s = (1024, 1024) :=
  ⟨parse_intpair, parse_fallback⟩

/-- Counterexample to claim C9 as stated: `" 10x20"` is not of the form
`<int>x<int>` (its first piece carries a leading space), yet
`parse_size` returns `(10, 20)` for it, not the fallback `(1024,
1024)` — Python `int` strips whitespace. -/
theorem C9_counterexample :
    intPairForm " 10x20".data = false ∧
      parse_size " 10x20".data = (10, 20) ∧
      parse_size " 10x20".data ≠ (1024, 1024) := by
  refine ⟨by decide, by decide, by decide⟩

/-- Witness for the amended C9: a concrete in-form string parses to its
pair, and a concrete out-of-form string falls back. -/
theorem C9_witness :
    parse_size ("12".data ++ 'x' :: "34".data) =
        (intLitVal "12".data, intLitVal "34".data) ∧
      parse_size "화성".data = (1024, 1024) :=
  ⟨C9_amended_parse.1 "12".data "34".data 'x' (Or.inl rfl) (by decide) (by decide),
    C9_amended_parse.2 "화성".data (by decide)⟩

end SolarApp
